import Mathlib

/-!
Shallow embedding of the Clawler crawler scripts
(`crawler.py`, `crawler_saramin.py`, `crawler_tistory.py`, `crawler_velog.py`).

HTML pages are abstracted to the results of the BeautifulSoup queries the
scripts actually perform: a page structure stores, for each `soup.find`/
`soup.select` call of the source, the text (or attribute value) the call
would return, as an `Option` (`none` models a missing element/attribute).
Network fetches are abstracted to `Option page` (`none` models a request
exception, matching the `try/except` blocks of the source).
-/

namespace Clawler

/-- Python `str.strip()`: remove leading and trailing whitespace. -/
def pyStrip (s : String) : String :=
  String.mk (((s.toList.dropWhile Char.isWhitespace).reverse.dropWhile
    Char.isWhitespace).reverse)

/-- Python `str.startswith(pre)`. -/
def pyStartsWith (s pre : String) : Bool :=
  pre.toList.isPrefixOf s.toList

/-- Python truthiness test `if tag and tag.get(attr):` on a meta tag.
The outer `Option` is presence of the tag, the inner one presence of the
attribute; the empty string is falsy in Python, so it also fails the test. -/
def truthyAttr : Option (Option String) → Option String
  | some (some c) => if c = "" then none else some c
  | _ => none

/-! ## Naver blog (`src/crawler.py`) -/

/-- Results of the BeautifulSoup queries issued by `fetch_blog_content`:
`ogTitle` = `meta[property=og:title]` (inner option: its `content` attribute),
`h3` = stripped text of the first `h3`,
`seMain` = text of `div.se-main-container` (`get_text(separator="\n", strip=True)`),
`postView` = text of `div#postViewArea`,
`ogDate` = `meta[property=article:published_time]` with its `content` attribute,
`publishSpan` = stripped text of `span.se_publishDate`. -/
structure NaverDOM where
  ogTitle : Option (Option String)
  h3 : Option String
  seMain : Option String
  postView : Option String
  ogDate : Option (Option String)
  publishSpan : Option String

/-- Does the character list begin with exactly ten characters of shape
`\d{4}\.\d{2}\.\d{2}` (the regex used at `crawler.py:73`)?  Digits are
ASCII digits, matching the dates appearing on the page. -/
def shapeOK : List Char → Bool
  | [a, b, c, d, e, f, g, h, i, j] =>
    a.isDigit && b.isDigit && c.isDigit && d.isDigit && e == '.' &&
    f.isDigit && g.isDigit && h == '.' && i.isDigit && j.isDigit
  | _ => false

/-- Does a match of the date pattern start at the head of the list? -/
def dateChunk (cs : List Char) : Bool := shapeOK (cs.take 10)

/-- `re.search(r"\d\x7b4\x7d\.\d\x7b2\x7d\.\d\x7b2\x7d", s)`: leftmost
occurrence of the ten-character date pattern, as `match.group(0)`. -/
def searchDate : List Char → Option (List Char)
  | [] => none
  | c :: rest =>
    if dateChunk (c :: rest) then some ((c :: rest).take 10)
    else searchDate rest

/-- Bool-valued shape predicate on strings: ten characters of shape
`YYYY.MM.DD`. -/
def isDateShape (s : String) : Bool := shapeOK s.toList

/-- The `span.se_publishDate` branch of the date extraction: a regex match
yields `match.group(0)`, no match leaves the date empty (`crawler.py:70-75`). -/
def naverSpanDate (txt : String) : String :=
  match searchDate txt.toList with
  | some m => String.mk m
  | none => ""

/-- `fetch_blog_content` (`crawler.py:21-77`).  `none` input models the
request failing (`crawler.py:36-38`); otherwise the title, content and date
fallback chains are evaluated on the fetched page. -/
def fetch_blog_content (page : Option NaverDOM) : String × String × String :=
  match page with
  | none => ("", "", "")
  | some dom =>
    let title :=
      match truthyAttr dom.ogTitle with
      | some c => pyStrip c
      | none =>
        match dom.h3 with
        | some t => t
        | none => ""
    let content :=
      match dom.seMain with
      | some t => t
      | none =>
        match dom.postView with
        | some t => t
        | none => ""
    let date :=
      match truthyAttr dom.ogDate with
      | some c => pyStrip c
      | none =>
        match dom.publishSpan with
        | some txt => naverSpanDate txt
        | none => ""
    (title, content, date)

/-- One page of Naver search results: either the request raised
(`crawler.py:102-104`) or it returned the anchors selected by
`div.api_save_group._keep_wrap a[data-url]`, each with its `data-url`
attribute (`none` models a missing attribute). -/
inductive NaverPage where
  | fetchFail
  | loaded (posts : List (Option String))

/-- Inner anchor loop of `crawl_blog_urls` (`crawler.py:113-120`). -/
def naverPostsLoop : List (Option String) → Nat → List String → List String
  | [], _, acc => acc
  | p :: rest, maxA, acc =>
    if maxA ≤ acc.length then acc
    else
      match p with
      | none => naverPostsLoop rest maxA acc
      | some url =>
        if url = "" ∨ pyStrip url = "#" ∨ pyStrip url = "javascript:void(0)" ∨
            ¬ pyStartsWith url "http" then
          naverPostsLoop rest maxA acc
        else if url ∈ acc then naverPostsLoop rest maxA acc
        else naverPostsLoop rest maxA (acc ++ [url])

/-- Page loop of `crawl_blog_urls` (`crawler.py:92-124`): a failed request
and a page with zero matches both `continue`; the loop breaks once the
accumulated count reaches `max_articles`. -/
def naverPagesLoop : List NaverPage → Nat → List String → List String
  | [], _, acc => acc
  | NaverPage.fetchFail :: rest, maxA, acc => naverPagesLoop rest maxA acc
  | NaverPage.loaded posts :: rest, maxA, acc =>
    if posts = [] then naverPagesLoop rest maxA acc
    else
      let acc2 := naverPostsLoop posts maxA acc
      if maxA ≤ acc2.length then acc2
      else naverPagesLoop rest maxA acc2

/-- `crawl_blog_urls` (`crawler.py:80-126`); the `pages` list holds the
pages `1 .. max_pages` of search results. -/
def crawl_blog_urls (pages : List NaverPage) (maxA : Nat) : List String :=
  naverPagesLoop pages maxA []

/-- Record written by `crawl_blog_search` / `crawl_tistory_search`. -/
structure BlogRecord where
  url : String
  title : String
  content : String
  date : String
deriving DecidableEq

/-- `crawl_blog_search` (`crawler.py:129-148`), with the per-URL fetch
abstracted to a function from the URL to the extracted triple. -/
def crawl_blog_search : List String → (String → String × String × String) → List BlogRecord
  | [], _ => []
  | u :: rest, fetch =>
    let t := (fetch u).1
    let c := (fetch u).2.1
    let d := (fetch u).2.2
    if t ≠ "" ∨ c ≠ "" then ⟨u, t, c, d⟩ :: crawl_blog_search rest fetch
    else crawl_blog_search rest fetch

/-! ## Tistory (`src/crawler_tistory.py`) -/

/-- Results of the BeautifulSoup queries issued by the Tistory extraction
functions (`crawler_tistory.py:110-216`):
`ogTitle` = `meta[property=og:title]` with its `content` attribute,
`titleTag` = stripped text of the `title` tag,
`article` .. `postArea` = `get_text(separator="\n", strip=True)` of the six
content selectors `article`, `div.post-content`, `div#post`, `div#content`,
`div.entry-content`, `div.postArea`,
`pubTime` = `meta[property=article:published_time]` with its `content`
attribute, `timeTag` = the `time` tag's `datetime` attribute and stripped
text. -/
structure TistoryDOM where
  ogTitle : Option (Option String)
  titleTag : Option String
  article : Option String
  postContent : Option String
  postDiv : Option String
  contentDiv : Option String
  entryContent : Option String
  postArea : Option String
  pubTime : Option (Option String)
  timeTag : Option (Option String × String)

/-- Shared title chain of both Tistory extraction functions
(`crawler_tistory.py:125-132` and `183-190`). -/
def tistoryTitle (dom : TistoryDOM) : String :=
  match truthyAttr dom.ogTitle with
  | some c => pyStrip c
  | none =>
    match dom.titleTag with
    | some t => t
    | none => ""

/-- Shared date chain of both Tistory extraction functions
(`crawler_tistory.py:151-156` and `208-213`); `tag.get("datetime") or text`
picks the text when the attribute is absent or empty. -/
def tistoryDate (dom : TistoryDOM) : String :=
  match dom.pubTime with
  | some attr => pyStrip (attr.getD "")
  | none =>
    match dom.timeTag with
    | some (dtAttr, txt) =>
      match dtAttr with
      | some s => if s = "" then txt else s
      | none => txt
    | none => ""

/-- The six content selectors of the Tistory extraction, in source order. -/
def tistorySelectors (dom : TistoryDOM) : List (Option String) :=
  [dom.article, dom.postContent, dom.postDiv, dom.contentDiv,
   dom.entryContent, dom.postArea]

/-- Content loop of `fetch_tistory_content_selenium`
(`crawler_tistory.py:135-149`): each matched selector overwrites `content`,
and the loop breaks at the first whose stripped text exceeds 20 characters. -/
def tistorySelContent : List (Option String) → String → String
  | [], content => content
  | none :: rest, content => tistorySelContent rest content
  | some t :: rest, _ =>
    if 20 < (pyStrip t).length then t else tistorySelContent rest t

/-- Static if/elif content chain of `fetch_tistory_content`
(`crawler_tistory.py:192-205`): the first matched selector wins, with no
length check. -/
def tistoryStaticContent (dom : TistoryDOM) : String :=
  match dom.article with
  | some t => t
  | none =>
    match dom.postContent with
    | some t => t
    | none =>
      match dom.postDiv with
      | some t => t
      | none =>
        match dom.contentDiv with
        | some t => t
        | none =>
          match dom.entryContent with
          | some t => t
          | none =>
            match dom.postArea with
            | some t => t
            | none => ""

/-- `fetch_tistory_content_selenium` (`crawler_tistory.py:110-158`),
evaluated on the rendered DOM. -/
def fetch_tistory_content_selenium (dom : TistoryDOM) : String × String × String :=
  (tistoryTitle dom, tistorySelContent (tistorySelectors dom) "", tistoryDate dom)

/-- `fetch_tistory_content` (`crawler_tistory.py:160-216`).  `static = none`
models the request raising (`crawler_tistory.py:172-177`), in which case the
Selenium fallback runs on the dynamically rendered DOM `dyn`.  The second
component counts how many times the dynamic (browser-rendered) strategy was
invoked for this URL. -/
def fetch_tistory_content (static : Option TistoryDOM) (dyn : TistoryDOM) :
    (String × String × String) × Nat :=
  match static with
  | none => (fetch_tistory_content_selenium dyn, 1)
  | some dom => ((tistoryTitle dom, tistoryStaticContent dom, tistoryDate dom), 0)

/-- One Tistory search-result page: either the `WebDriverWait` raised
(`crawler_tistory.py:75-81`) or the page loaded with the anchors selected by
`div.item_group a.link_cont.zoom_cont`, each with its `href` attribute. -/
inductive TistoryListPage where
  | waitFail
  | loaded (posts : List (Option String))

/-- Inner anchor loop of `crawl_tistory_urls_selenium`
(`crawler_tistory.py:96-101`). -/
def tistoryPostsLoop : List (Option String) → Nat → List String → List String
  | [], _, acc => acc
  | p :: rest, maxA, acc =>
    if maxA ≤ acc.length then acc
    else
      match p with
      | none => tistoryPostsLoop rest maxA acc
      | some url =>
        if url ≠ "" ∧ pyStartsWith url "http" ∧ url ∉ acc then
          tistoryPostsLoop rest maxA (acc ++ [url])
        else tistoryPostsLoop rest maxA acc

/-- Page loop of `crawl_tistory_urls_selenium` (`crawler_tistory.py:71-105`):
a wait failure and a page with zero matches both `continue`; the loop breaks
once the accumulated count reaches `max_articles`. -/
def tistoryPagesLoop : List TistoryListPage → Nat → List String → List String
  | [], _, acc => acc
  | TistoryListPage.waitFail :: rest, maxA, acc => tistoryPagesLoop rest maxA acc
  | TistoryListPage.loaded posts :: rest, maxA, acc =>
    if posts = [] then tistoryPagesLoop rest maxA acc
    else
      let acc2 := tistoryPostsLoop posts maxA acc
      if maxA ≤ acc2.length then acc2
      else tistoryPagesLoop rest maxA acc2

/-- `crawl_tistory_urls_selenium` (`crawler_tistory.py:57-108`). -/
def crawl_tistory_urls_selenium (pages : List TistoryListPage) (maxA : Nat) :
    List String :=
  tistoryPagesLoop pages maxA []

/-- `crawl_tistory_search` (`crawler_tistory.py:219-238`), with the per-URL
fetch abstracted to a function from the URL to the extracted triple. -/
def crawl_tistory_search : List String → (String → String × String × String) → List BlogRecord
  | [], _ => []
  | u :: rest, fetch =>
    let t := (fetch u).1
    let c := (fetch u).2.1
    let d := (fetch u).2.2
    if t ≠ "" ∨ c ≠ "" then ⟨u, t, c, d⟩ :: crawl_tistory_search rest fetch
    else crawl_tistory_search rest fetch

/-! ## Velog (`src/crawler_velog.py`) -/

/-- Inner anchor loop of `crawl_velog_urls_selenium`
(`crawler_velog.py:48-66`).  Each anchor is given as its absolute URL
(`urljoin` of an `href` matching `^/@`) paired with the date string read
from the sibling `div.subinfo` span.  `seen` mirrors the Python set of the
same name; the loop breaks only after appending, once the collected count
has reached `max_articles`. -/
def velogAnchorsLoop : List (String × String) → Nat → List String →
    List (String × String) → List String × List (String × String)
  | [], _, seen, acc => (seen, acc)
  | (u, d) :: rest, maxA, seen, acc =>
    if u ∈ seen then velogAnchorsLoop rest maxA seen acc
    else
      let seen2 := seen ++ [u]
      let acc2 := acc ++ [(u, d)]
      if maxA ≤ acc2.length then (seen2, acc2)
      else velogAnchorsLoop rest maxA seen2 acc2

/-- Scroll loop of `crawl_velog_urls_selenium` (`crawler_velog.py:43-68`):
each of the up to `max_pages` scroll iterations re-parses the page's
anchors; the loop breaks once the collected count has reached
`max_articles`. -/
def velogScrollLoop : List (List (String × String)) → Nat → List String →
    List (String × String) → List (String × String)
  | [], _, _, acc => acc
  | it :: rest, maxA, seen, acc =>
    let res := velogAnchorsLoop it maxA seen acc
    if maxA ≤ res.2.length then res.2
    else velogScrollLoop rest maxA res.1 res.2

/-- `crawl_velog_urls_selenium` (`crawler_velog.py:32-72`); `iters` holds
the anchor lists visible after each scroll iteration. -/
def crawl_velog_urls_selenium (iters : List (List (String × String)))
    (maxA : Nat) : List (String × String) :=
  velogScrollLoop iters maxA [] []

/-- Record written by `crawl_velog_search` (`crawler_velog.py:110-115`). -/
structure VelogRecord where
  url : String
  date : String
  title : String
  content : String
deriving DecidableEq

/-- `crawl_velog_search` (`crawler_velog.py:105-117`), with the per-URL
fetch abstracted to a function from the URL to the extracted
(title, content) pair.  Note the loop appends a record for every item. -/
def crawl_velog_search : List (String × String) → (String → String × String) → List VelogRecord
  | [], _ => []
  | (u, d) :: rest, fetch =>
    let t := (fetch u).1
    let c := (fetch u).2
    ⟨u, d, t, c⟩ :: crawl_velog_search rest fetch

/-! ## Saramin (`src/crawler_saramin.py`) -/

/-- `safe_get_text` (`crawler_saramin.py:13-15`), on the abstracted element
(an optional text). -/
def safe_get_text (element : Option String) (default : String) : String :=
  element.getD default

/-- The `div.view_title` container (`crawler_saramin.py:22-39`):
`strong` = text of the `strong` tag after `decompose`-ing its inner `span`,
`ul` = `get_text(strip=True, separator=" ")` of the first `ul`,
`txtDate` = text of `span.txt_date`. -/
structure ViewTitle where
  strong : Option String
  ul : Option String
  txtDate : Option String

/-- The `div.info_emotion` container (`crawler_saramin.py:50-57`):
`dls` holds, for each `dl` tag in order, the text of its first `dd`
(`none` when that `dl` has no `dd`); `sprReview` = text of
`dd.spr_review`. -/
structure InfoEmotion where
  dls : List (Option String)
  sprReview : Option String

/-- One `div.info_view` container (`crawler_saramin.py:60-69`):
`ul` = text of its first `ul`,
`txtDesc` = `get_text(strip=True, separator=" ")` of its first `p.txt_desc`,
`listQuestion` = the `li` texts of its `ul.list_question`, when present. -/
structure InfoView where
  ul : Option String
  txtDesc : Option String
  listQuestion : Option (List String)

/-- The `div.view_cont` container (`crawler_saramin.py:41-75`):
`txtDescPs` holds the `get_text(strip=True, separator=" ")` texts of all
`p.txt_desc` descendants, in document order. -/
structure ViewCont where
  infoEmotion : Option InfoEmotion
  infoViews : List InfoView
  txtDescPs : List String

/-- One `div.box_review` element. -/
structure ReviewBox where
  viewTitle : Option ViewTitle
  viewCont : Option ViewCont

/-- Record returned by `parse_review` (`crawler_saramin.py:77-89`). -/
structure Review where
  company : String
  result : String
  date : String
  interview_info : String
  overall_review : String
  difficulty : String
  interview_type : String
  num_interviewers : String
  process : String
  questions : List String
  tip : String
deriving DecidableEq

/-- `parse_review` (`crawler_saramin.py:17-89`); returns `none` (Python
`None`) when `view_title` or `view_cont` is missing. -/
def parse_review (box : ReviewBox) : Option Review :=
  match box.viewTitle with
  | none => none
  | some vt =>
    let company :=
      match vt.strong with
      | some txt => pyStrip txt
      | none => ""
    let info_interview := safe_get_text vt.ul ""
    let date := pyStrip (safe_get_text vt.txtDate "")
    match box.viewCont with
    | none => none
    | some vc =>
      let result := ""
      let overall :=
        match vc.infoEmotion with
        | some ie =>
          match ie.dls with
          | some ddTxt :: _ => pyStrip ddTxt
          | _ => ""
        | none => ""
      let difficulty :=
        match vc.infoEmotion with
        | some ie => pyStrip (safe_get_text ie.sprReview "")
        | none => ""
      let ivs := vc.infoViews
      let interview_type :=
        match ivs.get? 0 with
        | some iv => pyStrip (safe_get_text iv.ul "")
        | none => ""
      let num_interviewers :=
        match ivs.get? 1 with
        | some iv => pyStrip (safe_get_text iv.ul "")
        | none => ""
      let process :=
        match ivs.get? 2 with
        | some iv => safe_get_text iv.txtDesc ""
        | none => ""
      let questions :=
        match ivs.get? 3 with
        | some iv =>
          match iv.listQuestion with
          | some lis => lis.map (fun li => pyStrip (safe_get_text (some li) ""))
          | none => []
        | none => []
      let p_tags := vc.txtDescPs
      let tip :=
        if 1 < p_tags.length then safe_get_text p_tags.getLast? "" else ""
      some ⟨company, result, date, info_interview, overall, difficulty,
            interview_type, num_interviewers, process, questions, tip⟩

/-- `crawl_saramin_reviews` (`crawler_saramin.py:113-130`); each element of
`pages` is the result of `fetch_reviews_page`: `none` when the request
raised (which breaks the loop), otherwise the list of `div.box_review`
elements (an empty list also breaks the loop). -/
def crawl_saramin_reviews : List (Option (List ReviewBox)) → List Review
  | [] => []
  | none :: _ => []
  | some boxes :: rest =>
    if boxes.isEmpty then []
    else boxes.filterMap parse_review ++ crawl_saramin_reviews rest

/-! ## Concrete fixture pages -/

/-- A parseable Naver page on which no selector matches. -/
def emptyNaverDOM : NaverDOM := ⟨none, none, none, none, none, none⟩

/-- A Naver page whose date comes from the publish span. -/
def dateSpanDOM : NaverDOM := ⟨none, none, none, none, none, some "2024.01.02. 1:30"⟩

/-- A Tistory page on which no selector matches. -/
def emptyTistoryDOM : TistoryDOM :=
  ⟨none, none, none, none, none, none, none, none, none, none⟩

/-- A Tistory page whose `article` element holds fewer than 20 characters. -/
def shortTistoryDOM : TistoryDOM :=
  ⟨none, none, some "short", none, none, none, none, none, none, none⟩

/-- A `view_title` container with no inner elements. -/
def bareViewTitle : ViewTitle := ⟨none, none, none⟩

/-- A `view_cont` container with no inner elements. -/
def bareViewCont : ViewCont := ⟨none, [], []⟩

/-- A review box with both required containers but nothing inside them. -/
def bareBox : ReviewBox := ⟨some bareViewTitle, some bareViewCont⟩

/-- The record `parse_review` returns on `bareBox`. -/
def bareReview : Review := ⟨"", "", "", "", "", "", "", "", "", [], ""⟩

/-! ## Claim C3 -/

/-- Claim C3, counterexample: on a page whose static fetch succeeds with
extracted content of fewer than 20 characters, `fetch_tistory_content`
does not invoke the dynamic strategy at all, refuting the claim that it is
invoked exactly once. -/
theorem short_content_no_escalation :
    (pyStrip (fetch_tistory_content (some shortTistoryDOM) emptyTistoryDOM).1.2.1).length < 20 ∧
    (fetch_tistory_content (some shortTistoryDOM) emptyTistoryDOM).2 ≠ 1 := by
  decide

/-- Claim C3 (amended): `fetch_tistory_content` invokes the dynamic
(browser-rendered) strategy exactly once when the static fetch fails and
never when it succeeds, regardless of the extracted content length; the
Naver `fetch_blog_content` has no dynamic strategy and returns the empty
triple when its static fetch fails. -/
theorem escalation_on_fetch_failure_only :
    (∀ dyn : TistoryDOM, (fetch_tistory_content none dyn).2 = 1) ∧
    (∀ dom dyn : TistoryDOM, (fetch_tistory_content (some dom) dyn).2 = 0) ∧
    fetch_blog_content none = ("", "", "") :=
  ⟨fun _ => rfl, fun _ _ => rfl, rfl⟩

/-! ## Claim C5 -/

/-- Claim C5, counterexample: on a page with no matching content elements
the Saramin `parse_review` returns `none` (Python `None`), not a record
with empty fields. -/
theorem parse_review_missing_container : parse_review ⟨none, none⟩ = none := rfl

/-- Claim C5 (amended): `fetch_blog_content` on a parseable page with no
matching elements returns the triple of empty strings (extraction is a
total function, so it cannot raise); `parse_review` on a box whose required
containers are present but empty returns a record with every field present,
all string fields empty and no questions; when `view_title` or `view_cont`
is missing it returns `none` (the review is skipped) rather than a
record. -/
theorem empty_extraction_amended :
    fetch_blog_content (some emptyNaverDOM) = ("", "", "") ∧
    parse_review bareBox = some bareReview ∧
    (∀ vc : Option ViewCont, parse_review ⟨none, vc⟩ = none) ∧
    (∀ vt : ViewTitle, parse_review ⟨some vt, none⟩ = none) :=
  ⟨rfl, rfl, fun _ => rfl, fun _ => rfl⟩

/-! ## Claim C8 -/

/-- Claim C8: for every review box with the required containers present,
the record's `tip` field is the text of the last `p.txt_desc` paragraph of
the content container when more than one such paragraph exists, and the
empty string otherwise. -/
theorem tip_last_paragraph (vt : ViewTitle) (vc : ViewCont) :
    (parse_review ⟨some vt, some vc⟩).map Review.tip =
      some (if 1 < vc.txtDescPs.length then vc.txtDescPs.getLast?.getD "" else "") :=
  rfl

/-! ## Claim C9 -/

/-- Claim C9: whenever `parse_review` returns a record, its `result` field
is the empty string. -/
theorem result_field_empty (box : ReviewBox) (r : Review)
    (h : parse_review box = some r) : r.result = "" := by
  rcases box with ⟨vt, vc⟩
  cases vt with
  | none => simp [parse_review] at h
  | some vt =>
    cases vc with
    | none => simp [parse_review] at h
    | some vc =>
      simp only [parse_review, Option.some.injEq] at h
      rw [← h]

/-- Claim C9, witness: `result_field_empty` applied to a concrete box. -/
theorem result_field_empty_witness : bareReview.result = "" :=
  result_field_empty bareBox bareReview rfl

/-! ## Claim C10 -/

/-- The content loop computes the first matched selector text whose
stripped length exceeds 20 and otherwise falls back to the last matched
text, or to the initial value when nothing matched. -/
theorem tistorySelContent_eq (l : List (Option String)) (c : String) :
    tistorySelContent l c =
      match (l.filterMap id).find? (fun t => 20 < (pyStrip t).length) with
      | some t => t
      | none => (l.filterMap id).getLast?.getD c := by
  induction l generalizing c with
  | nil => rfl
  | cons o rest ih =>
    cases o with
    | none =>
      simpa only [tistorySelContent, List.filterMap_cons_none, id] using ih c
    | some t =>
      have hfm : List.filterMap id (some t :: rest) = t :: List.filterMap id rest := by
        simp
      rw [hfm]
      by_cases hp : 20 < (pyStrip t).length
      · rw [List.find?_cons_of_pos _ (by simpa using hp)]
        simp [tistorySelContent, hp]
      · rw [List.find?_cons_of_neg _ (by simpa using hp)]
        simp only [tistorySelContent, if_neg hp]
        rw [ih t]
        cases hfr : List.find? (fun t => decide (20 < (pyStrip t).length))
            (List.filterMap id rest) with
        | some u => rfl
        | none =>
          cases hrest : List.filterMap id rest with
          | nil => rfl
          | cons x xs =>
            cases hgl : (x :: xs).getLast? with
            | none => simp at hgl
            | some y => simp [List.getLast?_cons_cons, hgl]

/-- Claim C10: the content of the Tistory dynamic-render extraction is the
text of the first selector in the fixed chain whose stripped text exceeds
20 characters, else the text of the last selector that matched at all, else
the empty string. -/
theorem selenium_content_chain (dom : TistoryDOM) :
    (fetch_tistory_content_selenium dom).2.1 =
      match ((tistorySelectors dom).filterMap id).find?
          (fun t => 20 < (pyStrip t).length) with
      | some t => t
      | none => ((tistorySelectors dom).filterMap id).getLast?.getD "" :=
  tistorySelContent_eq (tistorySelectors dom) ""

/-! ## Claim C6 -/

/-- Whatever `searchDate` returns satisfies the ten-character date shape. -/
theorem searchDate_shape (cs m : List Char) (h : searchDate cs = some m) :
    shapeOK m = true := by
  induction cs with
  | nil => simp [searchDate] at h
  | cons c rest ih =>
    rw [searchDate] at h
    split at h
    · rename_i hd
      injection h with h
      rw [← h]
      simpa [dateChunk] using hd
    · exact ih h

/-- Claim C6: when the Naver date is not taken from the meta tag, the
returned date either matches the `YYYY.MM.DD` shape (a full regex match)
or is the empty string; never a partial token. -/
theorem date_shape (dom : NaverDOM) (h : truthyAttr dom.ogDate = none) :
    (fetch_blog_content (some dom)).2.2 = "" ∨
      isDateShape (fetch_blog_content (some dom)).2.2 = true := by
  simp only [fetch_blog_content, h]
  cases dom.publishSpan with
  | none => exact Or.inl rfl
  | some txt =>
    simp only [naverSpanDate]
    cases hs : searchDate txt.toList with
    | none => exact Or.inl rfl
    | some m => exact Or.inr (searchDate_shape txt.toList m hs)

/-- Claim C6, witness: `date_shape` applied to a page whose publish span
holds a date token. -/
theorem date_shape_witness :
    (fetch_blog_content (some dateSpanDOM)).2.2 = "" ∨
      isDateShape (fetch_blog_content (some dateSpanDOM)).2.2 = true :=
  date_shape dateSpanDOM rfl

/-! ## Claim C7 -/

/-- The predicate Claim C7 states on every URL in the Naver discovery
output. -/
def naverLinkOK (url : String) : Prop :=
  url ≠ "" ∧ url ≠ "#" ∧ url ≠ "javascript:void(0)" ∧
    pyStartsWith url "http" = true

/-- Every URL the anchor loop adds passes the href filter. -/
theorem naverPostsLoop_mem (posts : List (Option String)) (maxA : Nat)
    (acc : List String) (hacc : ∀ u ∈ acc, naverLinkOK u) :
    ∀ u ∈ naverPostsLoop posts maxA acc, naverLinkOK u := by
  induction posts generalizing acc with
  | nil => simpa [naverPostsLoop] using hacc
  | cons p rest ih =>
    rw [naverPostsLoop.eq_def]
    dsimp only
    split
    · exact hacc
    · cases p with
      | none => exact ih acc hacc
      | some url =>
        dsimp only
        split
        · exact ih acc hacc
        · rename_i hbad
          push_neg at hbad
          obtain ⟨h1, h2, h3, h4⟩ := hbad
          split
          · exact ih acc hacc
          · apply ih
            intro u hu
            rcases List.mem_append.mp hu with hmem | hmem
            · exact hacc u hmem
            · have hu : u = url := List.mem_singleton.mp hmem
              subst hu
              refine ⟨h1, ?_, ?_, by simpa using h4⟩
              · intro e
                apply h2
                rw [e]
                decide
              · intro e
                apply h3
                rw [e]
                decide

/-- Every URL the page loop adds passes the href filter. -/
theorem naverPagesLoop_mem (pages : List NaverPage) (maxA : Nat)
    (acc : List String) (hacc : ∀ u ∈ acc, naverLinkOK u) :
    ∀ u ∈ naverPagesLoop pages maxA acc, naverLinkOK u := by
  induction pages generalizing acc with
  | nil => simpa [naverPagesLoop] using hacc
  | cons pg rest ih =>
    cases pg with
    | fetchFail => exact ih acc hacc
    | loaded posts =>
      rw [naverPagesLoop]
      split
      · exact ih acc hacc
      · dsimp only
        split
        · exact naverPostsLoop_mem posts maxA acc hacc
        · exact ih _ (naverPostsLoop_mem posts maxA acc hacc)

/-- Claim C7: every URL in the Naver discovery output is non-empty, is not
`#`, is not `javascript:void(0)`, and starts with `http`; in particular an
anchor whose target is `javascript:void(0)` is always excluded. -/
theorem link_filter (pages : List NaverPage) (maxA : Nat) (u : String)
    (h : u ∈ crawl_blog_urls pages maxA) : naverLinkOK u :=
  naverPagesLoop_mem pages maxA [] (by simp) u h

/-- Claim C7, witness: `link_filter` applied to a concrete listing page. -/
theorem link_filter_witness : naverLinkOK "http://a.example/post" :=
  link_filter [NaverPage.loaded [some "javascript:void(0)", some "http://a.example/post"]]
    5 "http://a.example/post" (by decide)

/-! ## Claim C1 -/

/-- The Naver anchor loop never grows the accumulator beyond the cap. -/
theorem naverPostsLoop_length (posts : List (Option String)) (maxA : Nat)
    (acc : List String) (h : acc.length ≤ maxA) :
    (naverPostsLoop posts maxA acc).length ≤ maxA := by
  induction posts generalizing acc with
  | nil => simpa [naverPostsLoop] using h
  | cons p rest ih =>
    rw [naverPostsLoop.eq_def]
    dsimp only
    split
    · exact h
    · rename_i hlt
      cases p with
      | none => exact ih acc h
      | some url =>
        dsimp only
        split
        · exact ih acc h
        · split
          · exact ih acc h
          · refine ih _ ?_
            have hl : acc.length < maxA := Nat.lt_of_not_le hlt
            simp only [List.length_append, List.length_singleton]
            omega

/-- The Naver anchor loop preserves distinctness of collected URLs. -/
theorem naverPostsLoop_nodup (posts : List (Option String)) (maxA : Nat)
    (acc : List String) (h : acc.Nodup) :
    (naverPostsLoop posts maxA acc).Nodup := by
  induction posts generalizing acc with
  | nil => simpa [naverPostsLoop] using h
  | cons p rest ih =>
    rw [naverPostsLoop.eq_def]
    dsimp only
    split
    · exact h
    · cases p with
      | none => exact ih acc h
      | some url =>
        dsimp only
        split
        · exact ih acc h
        · split
          · exact ih acc h
          · rename_i hmem
            refine ih _ ?_
            simpa [List.concat_eq_append] using List.Nodup.concat hmem h

/-- The Naver page loop never grows the accumulator beyond the cap. -/
theorem naverPagesLoop_length (pages : List NaverPage) (maxA : Nat)
    (acc : List String) (h : acc.length ≤ maxA) :
    (naverPagesLoop pages maxA acc).length ≤ maxA := by
  induction pages generalizing acc with
  | nil => simpa [naverPagesLoop] using h
  | cons pg rest ih =>
    cases pg with
    | fetchFail => exact ih acc h
    | loaded posts =>
      rw [naverPagesLoop]
      split
      · exact ih acc h
      · dsimp only
        split
        · exact naverPostsLoop_length posts maxA acc h
        · exact ih _ (naverPostsLoop_length posts maxA acc h)

/-- The Naver page loop preserves distinctness of collected URLs. -/
theorem naverPagesLoop_nodup (pages : List NaverPage) (maxA : Nat)
    (acc : List String) (h : acc.Nodup) :
    (naverPagesLoop pages maxA acc).Nodup := by
  induction pages generalizing acc with
  | nil => simpa [naverPagesLoop] using h
  | cons pg rest ih =>
    cases pg with
    | fetchFail => exact ih acc h
    | loaded posts =>
      rw [naverPagesLoop]
      split
      · exact ih acc h
      · dsimp only
        split
        · exact naverPostsLoop_nodup posts maxA acc h
        · exact ih _ (naverPostsLoop_nodup posts maxA acc h)

/-- The Tistory anchor loop never grows the accumulator beyond the cap. -/
theorem tistoryPostsLoop_length (posts : List (Option String)) (maxA : Nat)
    (acc : List String) (h : acc.length ≤ maxA) :
    (tistoryPostsLoop posts maxA acc).length ≤ maxA := by
  induction posts generalizing acc with
  | nil => simpa [tistoryPostsLoop] using h
  | cons p rest ih =>
    rw [tistoryPostsLoop.eq_def]
    dsimp only
    split
    · exact h
    · rename_i hlt
      cases p with
      | none => exact ih acc h
      | some url =>
        dsimp only
        split
        · refine ih _ ?_
          have hl : acc.length < maxA := Nat.lt_of_not_le hlt
          simp only [List.length_append, List.length_singleton]
          omega
        · exact ih acc h

/-- The Tistory anchor loop preserves distinctness of collected URLs. -/
theorem tistoryPostsLoop_nodup (posts : List (Option String)) (maxA : Nat)
    (acc : List String) (h : acc.Nodup) :
    (tistoryPostsLoop posts maxA acc).Nodup := by
  induction posts generalizing acc with
  | nil => simpa [tistoryPostsLoop] using h
  | cons p rest ih =>
    rw [tistoryPostsLoop.eq_def]
    dsimp only
    split
    · exact h
    · cases p with
      | none => exact ih acc h
      | some url =>
        dsimp only
        split
        · rename_i hok
          refine ih _ ?_
          simpa [List.concat_eq_append] using List.Nodup.concat hok.2.2 h
        · exact ih acc h

/-- The Tistory page loop never grows the accumulator beyond the cap. -/
theorem tistoryPagesLoop_length (pages : List TistoryListPage) (maxA : Nat)
    (acc : List String) (h : acc.length ≤ maxA) :
    (tistoryPagesLoop pages maxA acc).length ≤ maxA := by
  induction pages generalizing acc with
  | nil => simpa [tistoryPagesLoop] using h
  | cons pg rest ih =>
    cases pg with
    | waitFail => exact ih acc h
    | loaded posts =>
      rw [tistoryPagesLoop]
      split
      · exact ih acc h
      · dsimp only
        split
        · exact tistoryPostsLoop_length posts maxA acc h
        · exact ih _ (tistoryPostsLoop_length posts maxA acc h)

/-- The Tistory page loop preserves distinctness of collected URLs. -/
theorem tistoryPagesLoop_nodup (pages : List TistoryListPage) (maxA : Nat)
    (acc : List String) (h : acc.Nodup) :
    (tistoryPagesLoop pages maxA acc).Nodup := by
  induction pages generalizing acc with
  | nil => simpa [tistoryPagesLoop] using h
  | cons pg rest ih =>
    cases pg with
    | waitFail => exact ih acc h
    | loaded posts =>
      rw [tistoryPagesLoop]
      split
      · exact ih acc h
      · dsimp only
        split
        · exact tistoryPostsLoop_nodup posts maxA acc h
        · exact ih _ (tistoryPostsLoop_nodup posts maxA acc h)

/-- The Velog anchor loop grows the accumulator to at most the cap, plus
one extra item when it was already at or above the cap (the cap is checked
only after appending). -/
theorem velogAnchorsLoop_length (anchors : List (String × String)) (maxA : Nat)
    (seen : List String) (acc : List (String × String)) :
    (velogAnchorsLoop anchors maxA seen acc).2.length ≤ max maxA (acc.length + 1) := by
  induction anchors generalizing seen acc with
  | nil => exact le_max_of_le_right (Nat.le_succ _)
  | cons a rest ih =>
    obtain ⟨u, d⟩ := a
    rw [velogAnchorsLoop.eq_def]
    dsimp only
    split
    · exact ih seen acc
    · split
      · simp only [List.length_append, List.length_singleton]
        exact le_max_of_le_right (Nat.le_refl (acc.length + 1))
      · rename_i hnb
        have h2 := ih (seen ++ [u]) (acc ++ [(u, d)])
        have hlen : (acc ++ [(u, d)]).length = acc.length + 1 := by simp
        rw [hlen] at h2 hnb
        have hm : max maxA (acc.length + 1 + 1) = maxA := max_eq_left (by omega)
        rw [hm] at h2
        exact le_trans h2 (le_max_left _ _)

/-- The `seen` set stays in sync with the URLs of the collected pairs. -/
theorem velogAnchorsLoop_sync (anchors : List (String × String)) (maxA : Nat)
    (seen : List String) (acc : List (String × String))
    (h : seen = acc.map Prod.fst) :
    (velogAnchorsLoop anchors maxA seen acc).1 =
      (velogAnchorsLoop anchors maxA seen acc).2.map Prod.fst := by
  induction anchors generalizing seen acc with
  | nil => simpa using h
  | cons a rest ih =>
    obtain ⟨u, d⟩ := a
    rw [velogAnchorsLoop.eq_def]
    dsimp only
    split
    · exact ih seen acc h
    · split
      · simp [h]
      · exact ih _ _ (by simp [h])

/-- The Velog anchor loop preserves distinctness of collected URLs. -/
theorem velogAnchorsLoop_nodup (anchors : List (String × String)) (maxA : Nat)
    (seen : List String) (acc : List (String × String))
    (h : seen = acc.map Prod.fst) (hnd : (acc.map Prod.fst).Nodup) :
    ((velogAnchorsLoop anchors maxA seen acc).2.map Prod.fst).Nodup := by
  induction anchors generalizing seen acc with
  | nil => simpa using hnd
  | cons a rest ih =>
    obtain ⟨u, d⟩ := a
    rw [velogAnchorsLoop.eq_def]
    dsimp only
    split
    · exact ih seen acc h hnd
    · rename_i hus
      rw [h] at hus
      split
      · simpa [List.concat_eq_append] using List.Nodup.concat hus hnd
      · refine ih _ _ (by simp [h]) ?_
        simpa [List.concat_eq_append] using List.Nodup.concat hus hnd

/-- The Velog scroll loop keeps the collection within the cap, up to the
single-overshoot slack of the anchor loop. -/
theorem velogScrollLoop_length (iters : List (List (String × String)))
    (maxA : Nat) (seen : List String) (acc : List (String × String)) :
    (velogScrollLoop iters maxA seen acc).length ≤ max maxA (acc.length + 1) := by
  induction iters generalizing seen acc with
  | nil => exact le_max_of_le_right (Nat.le_succ _)
  | cons it rest ih =>
    rw [velogScrollLoop.eq_def]
    dsimp only
    split
    · exact velogAnchorsLoop_length it maxA seen acc
    · rename_i hnb
      have h2 := ih (velogAnchorsLoop it maxA seen acc).1
        (velogAnchorsLoop it maxA seen acc).2
      have hm : max maxA ((velogAnchorsLoop it maxA seen acc).2.length + 1) = maxA :=
        max_eq_left (by omega)
      rw [hm] at h2
      exact le_trans h2 (le_max_left _ _)

/-- The Velog scroll loop preserves distinctness of collected URLs. -/
theorem velogScrollLoop_nodup (iters : List (List (String × String)))
    (maxA : Nat) (seen : List String) (acc : List (String × String))
    (h : seen = acc.map Prod.fst) (hnd : (acc.map Prod.fst).Nodup) :
    ((velogScrollLoop iters maxA seen acc).map Prod.fst).Nodup := by
  induction iters generalizing seen acc with
  | nil => simpa using hnd
  | cons it rest ih =>
    rw [velogScrollLoop.eq_def]
    dsimp only
    split
    · exact velogAnchorsLoop_nodup it maxA seen acc h hnd
    · exact ih _ _ (velogAnchorsLoop_sync it maxA seen acc h)
        (velogAnchorsLoop_nodup it maxA seen acc h hnd)

/-- Claim C1, counterexample: with `max_articles = 0` and a page holding
one anchor, the Velog discovery still returns one URL, because its loop
checks the cap only after appending. -/
theorem velog_cap_counterexample :
    ¬ (crawl_velog_urls_selenium [[("https://velog.io/@a/p", "2024.01.01")]] 0).length ≤ 0 := by
  decide

/-- Claim C1 (amended): for every input, the Naver and Tistory discovery
outputs have length at most `max_articles` and no duplicate URL; the Velog
discovery output has no duplicate URL and length at most
`max max_articles 1` (it can return one URL when `max_articles = 0`, since
the cap is only checked after appending; for `max_articles ≥ 1` the bound
is `max_articles`). -/
theorem discovery_capped_nodup (pagesN : List NaverPage)
    (pagesT : List TistoryListPage) (iters : List (List (String × String)))
    (maxA : Nat) :
    ((crawl_blog_urls pagesN maxA).length ≤ maxA ∧
      (crawl_blog_urls pagesN maxA).Nodup) ∧
    ((crawl_tistory_urls_selenium pagesT maxA).length ≤ maxA ∧
      (crawl_tistory_urls_selenium pagesT maxA).Nodup) ∧
    ((crawl_velog_urls_selenium iters maxA).length ≤ max maxA 1 ∧
      ((crawl_velog_urls_selenium iters maxA).map Prod.fst).Nodup) :=
  ⟨⟨naverPagesLoop_length pagesN maxA [] (Nat.zero_le _),
    naverPagesLoop_nodup pagesN maxA [] List.nodup_nil⟩,
   ⟨tistoryPagesLoop_length pagesT maxA [] (Nat.zero_le _),
    tistoryPagesLoop_nodup pagesT maxA [] List.nodup_nil⟩,
   ⟨velogScrollLoop_length iters maxA [] [],
    velogScrollLoop_nodup iters maxA [] [] rfl List.nodup_nil⟩⟩

/-! ## Claim C2 -/

/-- Claim C2, counterexample: a Velog URL whose extraction yields empty
title and empty content still produces a record. -/
theorem velog_emit_counterexample :
    (crawl_velog_search [("https://velog.io/@a/p", "2024.01.01")]
      (fun _ => ("", ""))).length = 1 := rfl

/-- Claim C2 (amended): the Naver and Tistory crawl loops append a record
for a URL exactly when its extracted title or content is non-empty; the
Velog crawl loop appends a record for every discovered URL, including when
both title and content are empty. -/
theorem emit_filter_amended :
    (∀ (urls : List String) (fetch : String → String × String × String),
      crawl_blog_search urls fetch =
        (urls.filter fun u => decide ((fetch u).1 ≠ "" ∨ (fetch u).2.1 ≠ "")).map
          fun u => ⟨u, (fetch u).1, (fetch u).2.1, (fetch u).2.2⟩) ∧
    (∀ (urls : List String) (fetch : String → String × String × String),
      crawl_tistory_search urls fetch =
        (urls.filter fun u => decide ((fetch u).1 ≠ "" ∨ (fetch u).2.1 ≠ "")).map
          fun u => ⟨u, (fetch u).1, (fetch u).2.1, (fetch u).2.2⟩) ∧
    (∀ (items : List (String × String)) (fetch : String → String × String),
      crawl_velog_search items fetch =
        items.map fun p => ⟨p.1, p.2, (fetch p.1).1, (fetch p.1).2⟩) := by
  refine ⟨?_, ?_, ?_⟩
  · intro urls fetch
    induction urls with
    | nil => rfl
    | cons u rest ih =>
      by_cases hc : (fetch u).1 ≠ "" ∨ (fetch u).2.1 ≠ ""
      · simp [crawl_blog_search, hc, List.filter_cons, ih]
      · simp [crawl_blog_search, hc, List.filter_cons, ih]
  · intro urls fetch
    induction urls with
    | nil => rfl
    | cons u rest ih =>
      by_cases hc : (fetch u).1 ≠ "" ∨ (fetch u).2.1 ≠ ""
      · simp [crawl_tistory_search, hc, List.filter_cons, ih]
      · simp [crawl_tistory_search, hc, List.filter_cons, ih]
  · intro items fetch
    induction items with
    | nil => rfl
    | cons p rest ih =>
      obtain ⟨u, d⟩ := p
      simp [crawl_velog_search, ih]

/-! ## Claim C4 -/

/-- Claim C4, counterexample: a Naver listing page with zero matching link
elements does not stop the traversal; a URL found on the following page is
still collected. -/
theorem naver_continues_counterexample :
    "http://a.example/post" ∈
      crawl_blog_urls
        [NaverPage.loaded [], NaverPage.loaded [some "http://a.example/post"]] 5 := by
  decide

/-- The Naver anchor loop adds nothing once the cap is reached. -/
theorem naverPostsLoop_stop (posts : List (Option String)) (maxA : Nat)
    (acc : List String) (h : maxA ≤ acc.length) :
    naverPostsLoop posts maxA acc = acc := by
  cases posts with
  | nil => rfl
  | cons p rest =>
    rw [naverPostsLoop.eq_def]
    dsimp only
    rw [if_pos h]

/-- The Naver page loop fetches nothing further once the cap is reached. -/
theorem naverPagesLoop_stop (pages : List NaverPage) (maxA : Nat)
    (acc : List String) (h : maxA ≤ acc.length) :
    naverPagesLoop pages maxA acc = acc := by
  induction pages with
  | nil => rfl
  | cons pg rest ih =>
    cases pg with
    | fetchFail => exact ih
    | loaded posts =>
      rw [naverPagesLoop]
      split
      · exact ih
      · dsimp only
        rw [naverPostsLoop_stop posts maxA acc h, if_pos h]

/-- Claim C4 (amended): the Saramin traversal stops at the first page with
zero review boxes (pages after it contribute nothing), and both traversals
stop once the accumulated count reaches the cap; the Naver traversal,
however, merely skips a page with zero matching link elements and
continues with later pages. -/
theorem zero_match_amended :
    (∀ (rest : List NaverPage) (maxA : Nat),
      crawl_blog_urls (NaverPage.loaded [] :: rest) maxA = crawl_blog_urls rest maxA) ∧
    (∀ ps rest : List (Option (List ReviewBox)),
      crawl_saramin_reviews (ps ++ some [] :: rest) =
        crawl_saramin_reviews (ps ++ [some []])) ∧
    (∀ (pages : List NaverPage) (maxA : Nat) (acc : List String),
      maxA ≤ acc.length → naverPagesLoop pages maxA acc = acc) := by
  refine ⟨fun rest maxA => rfl, ?_, fun pages maxA acc h => naverPagesLoop_stop pages maxA acc h⟩
  intro ps rest
  induction ps with
  | nil => rfl
  | cons p ps ih =>
    cases p with
    | none => rfl
    | some boxes =>
      by_cases hb : boxes.isEmpty
      · simp [crawl_saramin_reviews, hb]
      · simp [crawl_saramin_reviews, hb, ih]

/-- Claim C4, witness: once the collected count has reached the cap, a
further page contributes nothing. -/
theorem zero_match_amended_witness :
    naverPagesLoop [NaverPage.loaded [some "http://b.example/x"]] 1
      ["http://a.example/y"] = ["http://a.example/y"] :=
  zero_match_amended.2.2 [NaverPage.loaded [some "http://b.example/x"]] 1
    ["http://a.example/y"] (by decide)

end Clawler
